import Mathlib

/-!
Shallow embedding of the AI DJ application's core systems code
(src/utils/LiveMusicHelper.ts, src/utils/audio.ts, src/components/PromptDjMidi.ts)
together with theorems settling the behavioural claims about the
playback scheduler, the connection manager and the Auto DJ controller.

The repository file src/utils/LiveMusicHelper.ts contains several variants of
the same class; the one whose line numbers the claims reference (the first) is
the variant embedded here.  Where a second variant differs in a way a claim
mentions (the guard at the top of play in the second variant), that difference
is embedded under a separate name (playGuarded).
-/

namespace AIDJ

/-- PlaybackState from src/types: enum of the four playback phases. -/
inductive PlaybackState
  | stopped
  | loading
  | playing
  | paused
deriving DecidableEq, Repr

/-- Prompt from src/types: identity, genre text and mix weight
(color and MIDI control number are presentation-only and omitted). -/
structure Prompt where
  promptId : String
  text : String
  weight : ℚ
deriving DecidableEq, Repr

/-- An audio chunk as delivered by the service: the base64 payload after
decode (src/utils/audio.ts decode), i.e. a byte list of interleaved
16-bit PCM samples. -/
structure AudioChunk where
  data : List Nat
deriving DecidableEq, Repr

/-- Frame count computed by decodeAudioData (src/utils/audio.ts line 40):
floor of byte length over 2 bytes per sample over 2 channels. -/
def numFrames (c : AudioChunk) : Nat :=
  c.data.length / 2 / 2

/-- Duration of the decoded AudioBuffer: frames over the 48000 Hz sample rate
used by LiveMusicHelper (constructor, line 44). -/
def chunkDuration (c : AudioChunk) : ℚ :=
  (numFrames c : ℚ) / 48000

/-- Mutable fields of LiveMusicHelper (first variant, lines 15-32) that the
claims are about.  sessionActive models session not being null; volume is the
cached gain level. -/
structure HelperState where
  playbackState : PlaybackState
  nextStartTime : ℚ
  retryCount : Nat
  sessionActive : Bool
  volume : ℚ
  prompts : List Prompt
  filteredPrompts : List String
deriving DecidableEq, Repr

/-- maxRetries, LiveMusicHelper.ts line 18. -/
def maxRetries : Nat := 5

/-- retryDelay in milliseconds, LiveMusicHelper.ts line 19. -/
def retryDelay : Nat := 1000

/-- bufferTime in seconds, LiveMusicHelper.ts line 23 (first variant). -/
def bufferTime : ℚ := 2

/-- Result of one processAudioChunks call: the updated helper state, the
hardware-clock time at which the decoded buffer was scheduled to start
(none when no source.start happened), and whether the buffer-fill
setTimeout was armed on this call. -/
structure ProcessResult where
  state : HelperState
  started : Option ℚ
  timerArmed : Bool
deriving DecidableEq, Repr

/-- processAudioChunks, LiveMusicHelper.ts lines 121-147 (first variant).
Returns none exactly when the JS code would throw: indexing audioChunks[0]
of an empty array (the paused/stopped guard runs first, as in the source).
now models audioContext.currentTime at the time of the call. -/
def processAudioChunks (s : HelperState) (now : ℚ) (chunks : List AudioChunk) :
    Option ProcessResult :=
  if s.playbackState = .paused ∨ s.playbackState = .stopped then
    some { state := s, started := none, timerArmed := false }
  else
    match chunks with
    | [] => none
    | c :: _ =>
      let d := chunkDuration c
      let armed := decide (s.nextStartTime = 0)
      let t1 := if s.nextStartTime = 0 then now + bufferTime else s.nextStartTime
      if t1 < now then
        some { state := { s with playbackState := .loading, nextStartTime := 0 },
               started := none, timerArmed := armed }
      else
        some { state := { s with nextStartTime := t1 + d },
               started := some t1, timerArmed := armed }

/-- stop, LiveMusicHelper.ts lines 239-246: session.stop is issued, the state
becomes stopped, the cursor resets and the session handle is destroyed. -/
def stop (s : HelperState) : HelperState :=
  { s with playbackState := .stopped, nextStartTime := 0, sessionActive := false }

/-- pause, LiveMusicHelper.ts lines 231-237: state becomes paused and the
cursor resets; the session handle is kept. -/
def pause (s : HelperState) : HelperState :=
  { s with playbackState := .paused, nextStartTime := 0 }

/-- setVolume, LiveMusicHelper.ts lines 181-189: out-of-range levels are
ignored, otherwise the cached volume is updated (the gain-node ramp is an
external audio effect). -/
def setVolume (s : HelperState) (level : ℚ) : HelperState :=
  if level < 0 ∨ 1 < level then s else { s with volume := level }

/-- The buffer-fill setTimeout callback armed in processAudioChunks
(lines 134-138): flips loading to playing, otherwise does nothing. -/
def bufferTimerFire (s : HelperState) : HelperState :=
  if s.playbackState = .loading then { s with playbackState := .playing } else s

/-- Lemma: decoded chunk durations are never negative. -/
theorem chunkDuration_nonneg (c : AudioChunk) : 0 ≤ chunkDuration c := by
  unfold chunkDuration
  positivity

/-- Characterization: with the paused/stopped guard passed, processAudioChunks
on a nonempty chunk list is the re-init, underrun check and start of the
source, lines 132-146. -/
theorem process_cons (s : HelperState) (now : ℚ) (c : AudioChunk)
    (rest : List AudioChunk)
    (hguard : ¬(s.playbackState = .paused ∨ s.playbackState = .stopped)) :
    processAudioChunks s now (c :: rest) =
      (let t1 := if s.nextStartTime = 0 then now + bufferTime else s.nextStartTime
       if t1 < now then
         some { state := { s with playbackState := .loading, nextStartTime := 0 },
                started := none, timerArmed := decide (s.nextStartTime = 0) }
       else
         some { state := { s with nextStartTime := t1 + chunkDuration c },
                started := some t1, timerArmed := decide (s.nextStartTime = 0) }) := by
  unfold processAudioChunks
  rw [if_neg hguard]

/-- Characterization: a chunk arriving in paused or stopped is discarded with
no state change, line 122. -/
theorem process_guard (s : HelperState) (now : ℚ) (chunks : List AudioChunk)
    (hguard : s.playbackState = .paused ∨ s.playbackState = .stopped) :
    processAudioChunks s now chunks
      = some { state := s, started := none, timerArmed := false } := by
  unfold processAudioChunks
  rw [if_pos hguard]

/-- Characterization: first chunk after the cursor sentinel 0 re-establishes
the look-ahead and is started at now + bufferTime, lines 132-139. -/
theorem process_zero (s : HelperState) (now : ℚ) (c : AudioChunk)
    (rest : List AudioChunk)
    (hguard : ¬(s.playbackState = .paused ∨ s.playbackState = .stopped))
    (h0 : s.nextStartTime = 0) :
    processAudioChunks s now (c :: rest) =
      some { state := { s with nextStartTime := now + bufferTime + chunkDuration c },
             started := some (now + bufferTime), timerArmed := true } := by
  rw [process_cons s now c rest hguard]
  dsimp only
  rw [if_pos h0,
    if_neg (show ¬ (now + bufferTime < now) by unfold bufferTime; linarith)]
  simp [h0]

/-- Characterization: an initialised cursor behind the clock triggers the
underrun reset, lines 140-144. -/
theorem process_underrun (s : HelperState) (now : ℚ) (c : AudioChunk)
    (rest : List AudioChunk)
    (hguard : ¬(s.playbackState = .paused ∨ s.playbackState = .stopped))
    (h0 : s.nextStartTime ≠ 0) (hlt : s.nextStartTime < now) :
    processAudioChunks s now (c :: rest) =
      some { state := { s with playbackState := .loading, nextStartTime := 0 },
             started := none, timerArmed := false } := by
  rw [process_cons s now c rest hguard]
  dsimp only
  rw [if_neg h0, if_pos hlt]
  simp [h0]

/-- Characterization: an initialised cursor at or ahead of the clock schedules
the chunk at the cursor and advances it by the decoded duration,
lines 145-146. -/
theorem process_scheduled (s : HelperState) (now : ℚ) (c : AudioChunk)
    (rest : List AudioChunk)
    (hguard : ¬(s.playbackState = .paused ∨ s.playbackState = .stopped))
    (h0 : s.nextStartTime ≠ 0) (hge : ¬ s.nextStartTime < now) :
    processAudioChunks s now (c :: rest) =
      some { state := { s with nextStartTime := s.nextStartTime + chunkDuration c },
             started := some s.nextStartTime, timerArmed := false } := by
  rw [process_cons s now c rest hguard]
  dsimp only
  rw [if_neg h0, if_neg hge]
  simp [h0]

/-- A concrete state sitting in loading with the cursor at its 0 sentinel,
as the scheduler is after entering loading (or after an underrun reset). -/
def loadingState : HelperState :=
  { playbackState := .loading, nextStartTime := 0, retryCount := 0,
    sessionActive := true, volume := 1, prompts := [], filteredPrompts := [] }

/-- A small concrete chunk: 4 bytes, one stereo 16-bit frame. -/
def sampleChunk : AudioChunk := { data := [0, 0, 0, 0] }

/-- C1: the claim as stated is false.  A chunk processed while
nextStartTime (0, the sentinel) is strictly below the hardware clock
(now = 10) is not dropped: the scheduler re-establishes the look-ahead and
starts the buffer at now + bufferTime, so started is not none. -/
theorem C1_counterexample :
    ¬ (∀ (s : HelperState) (now : ℚ) (chunks : List AudioChunk) (r : ProcessResult),
        processAudioChunks s now chunks = some r →
        s.playbackState ≠ .paused → s.playbackState ≠ .stopped →
        s.nextStartTime < now →
        r.started = none ∧ r.state.playbackState = .loading
          ∧ r.state.nextStartTime = 0) := by
  intro h
  have hr := process_zero loadingState 10 sampleChunk [] (by simp [loadingState]) rfl
  have h2 := h loadingState 10 [sampleChunk] _ hr (by simp [loadingState])
    (by simp [loadingState]) (by simp [loadingState])
  exact absurd h2.1 (by simp)

/-- C1 (amended): once the cursor has been initialised (nextStartTime not 0),
a chunk processed while the cursor is behind the hardware clock is never
started; the scheduler transitions to loading and resets the cursor to 0.
Moreover, in every case, a chunk that is started is started at a time no
earlier than the current hardware clock. -/
theorem C1_underrun_guard (s : HelperState) (now : ℚ) (chunks : List AudioChunk)
    (r : ProcessResult) (h : processAudioChunks s now chunks = some r) :
    (s.playbackState ≠ .paused → s.playbackState ≠ .stopped →
      s.nextStartTime ≠ 0 → s.nextStartTime < now →
      r.started = none ∧ r.state.playbackState = .loading
        ∧ r.state.nextStartTime = 0)
    ∧ (∀ t, r.started = some t → now ≤ t) := by
  by_cases hguard : s.playbackState = .paused ∨ s.playbackState = .stopped
  · rw [process_guard s now chunks hguard] at h
    have hr := Option.some_injective _ h
    constructor
    · intro hp hs _ _
      rcases hguard with hg | hg
      · exact absurd hg hp
      · exact absurd hg hs
    · intro t ht
      rw [← hr] at ht
      simp at ht
  · match chunks with
    | [] =>
      rw [show processAudioChunks s now [] = none by
        unfold processAudioChunks; rw [if_neg hguard]] at h
      exact absurd h (by simp)
    | c :: rest =>
      by_cases h0 : s.nextStartTime = 0
      · rw [process_zero s now c rest hguard h0] at h
        have hr := Option.some_injective _ h
        constructor
        · intro _ _ hnz _
          exact absurd h0 hnz
        · intro t ht
          rw [← hr] at ht
          simp only at ht
          have := Option.some_injective _ ht
          rw [← this]
          unfold bufferTime
          linarith
      · by_cases hlt : s.nextStartTime < now
        · rw [process_underrun s now c rest hguard h0 hlt] at h
          have hr := Option.some_injective _ h
          constructor
          · intro _ _ _ _
            rw [← hr]
            exact ⟨rfl, rfl, rfl⟩
          · intro t ht
            rw [← hr] at ht
            simp at ht
        · rw [process_scheduled s now c rest hguard h0 hlt] at h
          have hr := Option.some_injective _ h
          constructor
          · intro _ _ _ hsn
            exact absurd hsn hlt
          · intro t ht
            rw [← hr] at ht
            simp only at ht
            have := Option.some_injective _ ht
            rw [← this]
            linarith [not_lt.mp hlt]

/-- C1 witness: at a concrete initialised state (cursor 5) with the clock at
now = 10, the chunk is dropped, the state re-enters loading and the cursor
resets to 0. -/
theorem C1_witness :
    ∃ r, processAudioChunks { loadingState with nextStartTime := 5 } 10 [sampleChunk]
        = some r
      ∧ r.started = none ∧ r.state.playbackState = .loading
      ∧ r.state.nextStartTime = 0 := by
  have hr := process_underrun { loadingState with nextStartTime := 5 } 10 sampleChunk []
    (by simp [loadingState]) (by simp [loadingState]) (by norm_num [loadingState])
  exact ⟨_, hr, (C1_underrun_guard _ 10 [sampleChunk] _ hr).1 (by simp [loadingState])
    (by simp [loadingState]) (by simp [loadingState]) (by norm_num [loadingState])⟩

/-- C9: after stop, the session handle is destroyed, the cursor is 0 and the
state is stopped; a chunk delivered afterwards is discarded by the
paused/stopped guard with no scheduling, no cursor mutation and no timer; and
the buffer-fill timer firing afterwards leaves the state unchanged. -/
theorem C9_stop_inert (s : HelperState) (now : ℚ) (chunks : List AudioChunk) :
    (stop s).sessionActive = false
    ∧ (stop s).nextStartTime = 0
    ∧ (stop s).playbackState = .stopped
    ∧ processAudioChunks (stop s) now chunks
        = some { state := stop s, started := none, timerArmed := false }
    ∧ bufferTimerFire (stop s) = stop s := by
  refine ⟨rfl, rfl, rfl, ?_, ?_⟩
  · exact process_guard (stop s) now chunks (Or.inr rfl)
  · unfold bufferTimerFire stop
    simp

/-- A run of the scheduler over a sequence of inbound messages, each carrying
one chunk at a given hardware-clock time; collects the start times of all
scheduled buffers in order.  The none case of a single step (empty chunk
array, which would throw in the source) aborts the run. -/
def processSeq : HelperState → List (ℚ × AudioChunk) → HelperState × List ℚ
  | s, [] => (s, [])
  | s, e :: rest =>
    match processAudioChunks s e.1 [e.2] with
    | none => (s, [])
    | some r =>
      let res := processSeq r.state rest
      (res.1, r.started.toList ++ res.2)

/-- True when every step of the run schedules its chunk: no step is discarded
by the paused/stopped guard and no step takes the underrun reset. -/
def noUnderrunRun : HelperState → List (ℚ × AudioChunk) → Bool
  | _, [] => true
  | s, e :: rest =>
    match processAudioChunks s e.1 [e.2] with
    | none => false
    | some r => r.started.isSome && noUnderrunRun r.state rest

/-- The contiguous schedule the spec demands: the first buffer at t, each
subsequent buffer at the previous start plus the previous duration. -/
def expectedStarts (t : ℚ) : List AudioChunk → List ℚ
  | [] => []
  | c :: rest => t :: expectedStarts (t + chunkDuration c) rest

/-- Lemma: from any state with a positive initialised cursor, an
underrun-free run schedules exactly the contiguous sequence anchored at the
cursor. -/
theorem processSeq_starts (events : List (ℚ × AudioChunk)) :
    ∀ s : HelperState, 0 < s.nextStartTime →
      noUnderrunRun s events = true →
      (processSeq s events).2 = expectedStarts s.nextStartTime (events.map Prod.snd) := by
  induction events with
  | nil => intro s _ _; rfl
  | cons e rest ih =>
    intro s hpos hrun
    have h0 : s.nextStartTime ≠ 0 := ne_of_gt hpos
    by_cases hguard : s.playbackState = .paused ∨ s.playbackState = .stopped
    · rw [noUnderrunRun, process_guard s e.1 [e.2] hguard] at hrun
      simp at hrun
    · by_cases hlt : s.nextStartTime < e.1
      · rw [noUnderrunRun, process_underrun s e.1 e.2 [] hguard h0 hlt] at hrun
        simp at hrun
      · have hp := process_scheduled s e.1 e.2 [] hguard h0 hlt
        rw [noUnderrunRun, hp] at hrun
        simp only [Option.isSome_some, Bool.true_and] at hrun
        rw [processSeq, hp]
        have hpos2 : 0 < s.nextStartTime + chunkDuration e.2 := by
          have := chunkDuration_nonneg e.2
          linarith
        have ihx := ih { s with nextStartTime := s.nextStartTime + chunkDuration e.2 }
          hpos2 hrun
        simp only [List.map_cons, expectedStarts]
        simp only [Option.toList_some, List.cons_append, List.nil_append]
        exact congrArg _ ihx

/-- Lemma: a contiguous schedule built from chunks of positive duration is
strictly increasing. -/
theorem expectedStarts_chain (cs : List AudioChunk) :
    ∀ t : ℚ, (∀ c ∈ cs, 0 < chunkDuration c) →
      List.Chain' (fun a b : ℚ => a < b) (expectedStarts t cs) := by
  induction cs with
  | nil => intro t _; simp [expectedStarts]
  | cons c rest ih =>
    intro t hpos
    have hrest := ih (t + chunkDuration c) (fun x hx => hpos x (List.mem_cons_of_mem c hx))
    cases rest with
    | nil => simp [expectedStarts]
    | cons c2 rest2 =>
      rw [expectedStarts, expectedStarts, List.chain'_cons]
      refine ⟨?_, ?_⟩
      · have := hpos c (List.mem_cons_self c _)
        linarith
      · rw [expectedStarts] at hrest
        exact hrest

/-- C2: from a state whose cursor is at the 0 sentinel (just entered loading),
an underrun-free run over chunks arriving at non-negative clock times
schedules the first chunk at its arrival time plus bufferTime and every later
chunk at the previous start plus the previous chunk's decoded duration; with
positive durations the start times are strictly increasing. -/
theorem C2_contiguous_schedule (s : HelperState) (now0 : ℚ) (c0 : AudioChunk)
    (rest : List (ℚ × AudioChunk))
    (h0 : s.nextStartTime = 0) (hnow : 0 ≤ now0)
    (hrun : noUnderrunRun s ((now0, c0) :: rest) = true) :
    (processSeq s ((now0, c0) :: rest)).2
      = expectedStarts (now0 + bufferTime) (c0 :: rest.map Prod.snd)
    ∧ ((∀ e ∈ (now0, c0) :: rest, 0 < chunkDuration e.2) →
        List.Chain' (fun a b : ℚ => a < b) (processSeq s ((now0, c0) :: rest)).2) := by
  by_cases hguard : s.playbackState = .paused ∨ s.playbackState = .stopped
  · rw [noUnderrunRun, process_guard s now0 [c0] hguard] at hrun
    simp at hrun
  · have hp := process_zero s now0 c0 [] hguard h0
    rw [noUnderrunRun, hp] at hrun
    simp only [Option.isSome_some, Bool.true_and] at hrun
    have hpos2 : 0 < now0 + bufferTime + chunkDuration c0 := by
      have := chunkDuration_nonneg c0
      unfold bufferTime
      linarith
    have hseq := processSeq_starts rest
      { s with nextStartTime := now0 + bufferTime + chunkDuration c0 } hpos2 hrun
    have hmain : (processSeq s ((now0, c0) :: rest)).2
        = expectedStarts (now0 + bufferTime) (c0 :: rest.map Prod.snd) := by
      rw [processSeq, hp]
      simp only [Option.toList_some, List.cons_append, List.nil_append, expectedStarts]
      exact congrArg _ hseq
    refine ⟨hmain, fun hdur => ?_⟩
    rw [hmain]
    refine expectedStarts_chain (c0 :: rest.map Prod.snd) (now0 + bufferTime) ?_
    intro x hx
    rcases List.mem_cons.mp hx with hx | hx
    · rw [hx]
      exact hdur (now0, c0) (List.mem_cons_self _ _)
    · rcases List.mem_map.mp hx with ⟨e, he, hex⟩
      rw [← hex]
      exact hdur e (List.mem_cons_of_mem _ he)

/-- C2 witness: two concrete chunks arriving at clock times 0 and 1 from the
loading state are scheduled at 2 and 2 + 1/48000, contiguous and strictly
increasing. -/
theorem C2_witness :
    (processSeq loadingState [(0, sampleChunk), (1, sampleChunk)]).2
      = expectedStarts (0 + bufferTime) [sampleChunk, sampleChunk]
    ∧ List.Chain' (fun a b : ℚ => a < b)
        (processSeq loadingState [(0, sampleChunk), (1, sampleChunk)]).2 := by
  have hs1 := process_zero loadingState 0 sampleChunk [] (by simp [loadingState]) rfl
  have hs2 := process_scheduled
    { loadingState with nextStartTime := 0 + bufferTime + chunkDuration sampleChunk }
    1 sampleChunk [] (by simp [loadingState])
    (by norm_num [loadingState, bufferTime, chunkDuration, numFrames, sampleChunk])
    (by norm_num [loadingState, bufferTime, chunkDuration, numFrames, sampleChunk])
  have hrun : noUnderrunRun loadingState [(0, sampleChunk), (1, sampleChunk)] = true := by
    rw [noUnderrunRun, hs1]
    simp only [Option.isSome_some, Bool.true_and]
    rw [noUnderrunRun, hs2]
    simp [noUnderrunRun]
  have h := C2_contiguous_schedule loadingState 0 sampleChunk [(1, sampleChunk)]
    rfl le_rfl hrun
  refine ⟨h.1, h.2 ?_⟩
  intro e he
  rcases List.mem_cons.mp he with he | he
  · rw [he]; norm_num [chunkDuration, numFrames, sampleChunk]
  · simp only [List.mem_singleton] at he
    rw [he]; norm_num [chunkDuration, numFrames, sampleChunk]

/-- C10: only the element at index 0 of an inbound audioChunks array matters:
processing a message whose chunk list is c followed by any tail gives exactly
the result of processing c alone, so elements at index 1 and beyond are
dropped and contribute nothing to the schedule or to nextStartTime. -/
theorem C10_only_first_chunk (s : HelperState) (now : ℚ) (c : AudioChunk)
    (rest : List AudioChunk) :
    processAudioChunks s now (c :: rest) = processAudioChunks s now [c] := rfl

/-- Message dispatched on the error event by a connection handler: either a
retrying notice carrying the backoff delay it announces, or the terminal
giving-up message. -/
inductive HandlerMsg
  | retrying (delayMs : Nat)
  | terminal
deriving DecidableEq, Repr

/-- Result of running a connection lifecycle handler: the new helper state,
the error message dispatched (if any), and the delay of the reconnect timer
armed by setTimeout to call play (none when no reconnect is scheduled). -/
structure HandlerResult where
  state : HelperState
  emitted : Option HandlerMsg
  scheduledPlayDelay : Option Nat
deriving DecidableEq, Repr

/-- onerror callback, LiveMusicHelper.ts lines 70-90 (first variant).  The
wasPlayingOrLoading flag is captured before stop runs.  Under the retry
bound the handler increments retryCount and dispatches the retrying message,
but the setTimeout scheduling play is commented out in the source (line 82),
so no reconnect is armed. -/
def onErrorHandler (s : HelperState) : HandlerResult :=
  let wasPlayingOrLoading := s.playbackState = .playing ∨ s.playbackState = .loading
  let s1 := stop s
  if wasPlayingOrLoading then
    if s.retryCount < maxRetries then
      { state := { s1 with retryCount := s.retryCount + 1 },
        emitted := some (.retrying (retryDelay * 2 ^ s.retryCount)),
        scheduledPlayDelay := none }
    else
      { state := { s1 with retryCount := 0 },
        emitted := some .terminal, scheduledPlayDelay := none }
  else
    { state := s1, emitted := none, scheduledPlayDelay := none }

/-- onclose callback, LiveMusicHelper.ts lines 91-111 (first variant): as
onerror, except that under the retry bound setTimeout arms a reconnect that
calls play after retryDelay * 2 ^ (retryCount - 1) milliseconds computed from
the incremented count (line 103). -/
def onCloseHandler (s : HelperState) : HandlerResult :=
  let wasPlayingOrLoading := s.playbackState = .playing ∨ s.playbackState = .loading
  let s1 := stop s
  if wasPlayingOrLoading then
    if s.retryCount < maxRetries then
      { state := { s1 with retryCount := s.retryCount + 1 },
        emitted := some (.retrying (retryDelay * 2 ^ s.retryCount)),
        scheduledPlayDelay := some (retryDelay * 2 ^ s.retryCount) }
    else
      { state := { s1 with retryCount := 0 },
        emitted := some .terminal, scheduledPlayDelay := none }
  else
    { state := s1, emitted := none, scheduledPlayDelay := none }

/-- A concrete state actively playing with a live session. -/
def playingState : HelperState :=
  { playbackState := .playing, nextStartTime := 5, retryCount := 0,
    sessionActive := true, volume := 1,
    prompts := [{ promptId := "prompt-0", text := "Rock", weight := 1 }],
    filteredPrompts := [] }

/-- C3: the claim as stated is false.  On a connection error while playing
with retryCount below maxRetries, the handler does not schedule a reconnect:
the setTimeout for play is commented out in the onerror callback, so
scheduledPlayDelay is none rather than the claimed backoff delay. -/
theorem C3_counterexample :
    ¬ (∀ s : HelperState,
        s.playbackState = .playing ∨ s.playbackState = .loading →
        s.retryCount < maxRetries →
        (onErrorHandler s).scheduledPlayDelay
          = some (retryDelay * 2 ^ s.retryCount)) := by
  intro h
  have h2 := h playingState (Or.inl rfl) (by norm_num [playingState, maxRetries])
  rw [show (onErrorHandler playingState).scheduledPlayDelay = none from rfl] at h2
  exact absurd h2 (by simp)

/-- C3 (amended): on a connection close while playing or loading with
retryCount below maxRetries, the handler increments retryCount, emits the
retrying message and schedules a reconnecting play after
retryDelay * 2 ^ (new retryCount - 1) milliseconds; on a connection error in
the same situation it increments retryCount and emits the retrying message
but schedules no reconnect; past the bound both handlers emit the terminal
error, schedule nothing and reset retryCount to zero. -/
theorem C3_backoff_policy (s : HelperState)
    (hact : s.playbackState = .playing ∨ s.playbackState = .loading) :
    (s.retryCount < maxRetries →
      (onCloseHandler s).state.retryCount = s.retryCount + 1
      ∧ (onCloseHandler s).emitted = some (.retrying (retryDelay * 2 ^ s.retryCount))
      ∧ (onCloseHandler s).scheduledPlayDelay = some (retryDelay * 2 ^ s.retryCount)
      ∧ (onErrorHandler s).state.retryCount = s.retryCount + 1
      ∧ (onErrorHandler s).emitted = some (.retrying (retryDelay * 2 ^ s.retryCount))
      ∧ (onErrorHandler s).scheduledPlayDelay = none)
    ∧ (maxRetries ≤ s.retryCount →
      (onCloseHandler s).emitted = some .terminal
      ∧ (onCloseHandler s).state.retryCount = 0
      ∧ (onCloseHandler s).scheduledPlayDelay = none
      ∧ (onErrorHandler s).emitted = some .terminal
      ∧ (onErrorHandler s).state.retryCount = 0
      ∧ (onErrorHandler s).scheduledPlayDelay = none) := by
  constructor
  · intro hlt
    unfold onCloseHandler onErrorHandler
    rw [if_pos hact, if_pos hact, if_pos hlt, if_pos hlt]
    exact ⟨rfl, rfl, rfl, rfl, rfl, rfl⟩
  · intro hge
    have hnlt : ¬ s.retryCount < maxRetries := not_lt.mpr hge
    unfold onCloseHandler onErrorHandler
    rw [if_pos hact, if_pos hact, if_neg hnlt, if_neg hnlt]
    exact ⟨rfl, rfl, rfl, rfl, rfl, rfl⟩

/-- C3 witness: from the concrete playing state with retryCount 0, close
schedules a reconnect after 1000 ms and error schedules none; at retryCount 5
both emit the terminal message and reset the count. -/
theorem C3_witness :
    ((onCloseHandler playingState).scheduledPlayDelay = some 1000
      ∧ (onErrorHandler playingState).scheduledPlayDelay = none)
    ∧ ((onCloseHandler { playingState with retryCount := 5 }).emitted = some .terminal
      ∧ (onCloseHandler { playingState with retryCount := 5 }).state.retryCount = 0) := by
  have h1 := (C3_backoff_policy playingState (Or.inl rfl)).1
    (by norm_num [playingState, maxRetries])
  have h2 := (C3_backoff_policy { playingState with retryCount := 5 } (Or.inl rfl)).2
    (by norm_num [playingState, maxRetries])
  exact ⟨⟨h1.2.2.1, h1.2.2.2.2.2⟩, ⟨h2.1, h2.2.1⟩⟩

/-- activePrompts getter, LiveMusicHelper.ts lines 149-154: prompts whose text
is not in the filtered set and whose weight is non-zero. -/
def activePrompts (s : HelperState) : List Prompt :=
  s.prompts.filter (fun p => !(s.filteredPrompts.contains p.text) && !(p.weight == 0))

/-- Result of the throttled setWeightedPrompts body: the new state, whether
the error event fired, and whether session.setWeightedPrompts was invoked. -/
structure SetPromptsResult where
  state : HelperState
  errorEmitted : Bool
  sessionCalled : Bool
deriving DecidableEq, Repr

/-- Body of setWeightedPrompts, LiveMusicHelper.ts lines 156-179 (inside the
200 ms throttle wrapper).  sessionRejects models the remote call throwing,
in which case the catch emits an error and pauses. -/
def setWeightedPrompts (s : HelperState) (prompts : List Prompt)
    (sessionRejects : Bool) : SetPromptsResult :=
  let s0 := { s with prompts := prompts }
  if (activePrompts s0).isEmpty then
    { state := pause s0, errorEmitted := true, sessionCalled := false }
  else if !s0.sessionActive then
    { state := s0, errorEmitted := false, sessionCalled := false }
  else if sessionRejects then
    { state := pause s0, errorEmitted := true, sessionCalled := true }
  else
    { state := s0, errorEmitted := false, sessionCalled := true }

/-- C4: a setWeightedPrompts call whose resulting active subset is empty
emits the error event, pauses playback, and never invokes the session's
setWeightedPrompts. -/
theorem C4_empty_prompts_pause (s : HelperState) (prompts : List Prompt)
    (sessionRejects : Bool)
    (h : activePrompts { s with prompts := prompts } = []) :
    (setWeightedPrompts s prompts sessionRejects).errorEmitted = true
    ∧ (setWeightedPrompts s prompts sessionRejects).state.playbackState = .paused
    ∧ (setWeightedPrompts s prompts sessionRejects).sessionCalled = false := by
  unfold setWeightedPrompts
  rw [if_pos (by simp [h])]
  exact ⟨rfl, rfl, rfl⟩

/-- C4 witness: sending a set whose only member has weight 0 to the playing
state pauses, errors, and does not call into the session. -/
theorem C4_witness :
    (setWeightedPrompts playingState
        [{ promptId := "prompt-0", text := "Rock", weight := 0 }] false).errorEmitted = true
    ∧ (setWeightedPrompts playingState
        [{ promptId := "prompt-0", text := "Rock", weight := 0 }] false).state.playbackState
        = .paused
    ∧ (setWeightedPrompts playingState
        [{ promptId := "prompt-0", text := "Rock", weight := 0 }] false).sessionCalled
        = false :=
  C4_empty_prompts_pause playingState
    [{ promptId := "prompt-0", text := "Rock", weight := 0 }] false
    (by simp [activePrompts, playingState])

/-- Result of a play call: the new state, whether an error was emitted,
whether session.play was invoked and whether a connect was attempted. -/
structure PlayResult where
  state : HelperState
  errorEmitted : Bool
  sessionPlayCalled : Bool
  connectAttempted : Bool
deriving DecidableEq, Repr

/-- play, LiveMusicHelper.ts lines 191-229 (first variant): state is set to
loading unconditionally before anything else; with no session it refuses an
empty active set, otherwise connects and pushes initial prompts (connectOk
and setPromptsOk model those awaits resolving vs rejecting); finally the
session is told to play and the gain ramps up. -/
def play (s : HelperState) (connectOk setPromptsOk : Bool) : PlayResult :=
  let s1 := { s with playbackState := PlaybackState.loading }
  if !s.sessionActive then
    if (activePrompts s1).isEmpty then
      { state := stop s1, errorEmitted := true,
        sessionPlayCalled := false, connectAttempted := false }
    else if !connectOk then
      { state := stop s1, errorEmitted := true,
        sessionPlayCalled := false, connectAttempted := true }
    else if !setPromptsOk then
      { state := stop { s1 with sessionActive := true }, errorEmitted := true,
        sessionPlayCalled := false, connectAttempted := true }
    else
      { state := { s1 with sessionActive := true }, errorEmitted := false,
        sessionPlayCalled := true, connectAttempted := true }
  else
    { state := s1, errorEmitted := false,
      sessionPlayCalled := true, connectAttempted := false }

/-- play of the second variant, LiveMusicHelper.ts lines 545-546: identical
except for the guard that returns immediately when already loading or
playing. -/
def playGuarded (s : HelperState) (connectOk setPromptsOk : Bool) : PlayResult :=
  if s.playbackState = .loading ∨ s.playbackState = .playing then
    { state := s, errorEmitted := false,
      sessionPlayCalled := false, connectAttempted := false }
  else
    play s connectOk setPromptsOk

/-- C7: the claim as stated is false for the play cited at lines 191-229:
called while already playing it is not a no-op — it sets the state to
loading and calls session.play again. -/
theorem C7_counterexample :
    ¬ (∀ (s : HelperState) (connectOk setPromptsOk : Bool),
        s.playbackState = .playing →
        (play s connectOk setPromptsOk).state = s
        ∧ (play s connectOk setPromptsOk).sessionPlayCalled = false) := by
  intro h
  have h2 := (h playingState true true rfl).2
  rw [show (play playingState true true).sessionPlayCalled = true from rfl] at h2
  exact absurd h2 (by simp)

/-- C7 (amended): pause, stop and setVolume are idempotent state
transformers, and the guarded play of the second variant (lines 545-546) is
a no-op while already playing: it changes no state, calls no session action
and attempts no connection.  The first variant's play lacks the guard and
re-enters loading instead. -/
theorem C7_idempotency (s : HelperState) (connectOk setPromptsOk : Bool) (level : ℚ)
    (hplay : s.playbackState = .playing) :
    (playGuarded s connectOk setPromptsOk).state = s
    ∧ (playGuarded s connectOk setPromptsOk).sessionPlayCalled = false
    ∧ (playGuarded s connectOk setPromptsOk).connectAttempted = false
    ∧ pause (pause s) = pause s
    ∧ stop (stop s) = stop s
    ∧ setVolume (setVolume s level) level = setVolume s level := by
  have hg : (playGuarded s connectOk setPromptsOk)
      = { state := s, errorEmitted := false,
          sessionPlayCalled := false, connectAttempted := false } := by
    unfold playGuarded
    rw [if_pos (Or.inr hplay)]
  refine ⟨by rw [hg], by rw [hg], by rw [hg], rfl, rfl, ?_⟩
  unfold setVolume
  by_cases hl : level < 0 ∨ 1 < level
  · rw [if_pos hl, if_pos hl]
  · rw [if_neg hl]
    simp [if_neg hl]

/-- C7 witness: at the concrete playing state, guarded play leaves the state
untouched with no session or connect action, and pause, stop and setVolume
applied twice equal themselves applied once. -/
theorem C7_witness :
    (playGuarded playingState true true).state = playingState
    ∧ (playGuarded playingState true true).sessionPlayCalled = false
    ∧ pause (pause playingState) = pause playingState
    ∧ stop (stop playingState) = stop playingState
    ∧ setVolume (setVolume playingState (1 / 2)) (1 / 2)
        = setVolume playingState (1 / 2) := by
  have h := C7_idempotency playingState true true (1 / 2) rfl
  exact ⟨h.1, h.2.1, h.2.2.2.1, h.2.2.2.2.1, h.2.2.2.2.2⟩

/-- One Auto DJ setlist entry, PromptDjMidi.ts line 209: a combination of
genre names to activate together. -/
structure Transition where
  genres : List String
deriving DecidableEq, Repr

/-- Mutable fields of PromptDjMidi (lines 199-216) the Auto DJ claims are
about. -/
structure AutoDjState where
  playbackState : PlaybackState
  isAutoDjActive : Bool
  isAutoDjLoading : Bool
  rateLimitCooldownActive : Bool
  autoDjPlaylist : List Transition
  autoDjCurrentIndex : Int
  currentModel : String
  autoDjIntervalId : Option Nat
  rateLimitTimeoutId : Option Nat
  prompts : List Prompt
  filteredPrompts : List String
deriving DecidableEq, Repr

/-- JS array indexing with an Int index: negatives and out-of-range yield
undefined. -/
def listGetInt {α : Type} (l : List α) (i : Int) : Option α :=
  if 0 ≤ i then l.get? i.toNat else none

/-- availablePrompts as computed in changeGenresRandomly and
fetchAutoDjPlaylist (lines 334, 488): prompts whose text is not filtered,
regardless of weight. -/
def availablePrompts (s : AutoDjState) : List Prompt :=
  s.prompts.filter (fun p => !(s.filteredPrompts.contains p.text))

/-- The forEach that zeroes every weight (lines 451, 492).  In JS the copied
Map shares the Prompt objects, so this mutation is visible through every
alias of the prompt set. -/
def zeroWeights (ps : List Prompt) : List Prompt :=
  ps.map (fun p => { p with weight := 0 })

/-- newPrompts.get(id) followed by weight = 1 (lines 498-499): sets the
weight of the prompt with the given id (map keys are unique, so the first
match) to 1. -/
def setWeightById : List Prompt → String → List Prompt
  | [], _ => []
  | p :: rest, i =>
    if p.promptId = i then { p with weight := 1 } :: rest
    else p :: setWeightById rest i

/-- The find-by-text followed by weight = 1 used per transition genre
(lines 455-457): sets the weight of the first prompt with the given text
to 1. -/
def setWeightFirst : List Prompt → String → List Prompt
  | [], _ => []
  | p :: rest, g =>
    if p.text = g then { p with weight := 1 } :: rest
    else p :: setWeightFirst rest g

/-- The activation loop of applyCurrentAutoDjTransition (lines 453-460):
walks the transition's genre names, activates each one present in the prompt
set, and counts the activations. -/
def activateGenres (ps : List Prompt) : List String → List Prompt × Nat
  | [] => (ps, 0)
  | g :: gs =>
    if ps.any (fun p => p.text == g) then
      let res := activateGenres (setWeightFirst ps g) gs
      (res.1, res.2 + 1)
    else
      activateGenres ps gs

/-- changeGenresRandomly, PromptDjMidi.ts lines 487-505.  The JS sort with a
random comparator is modelled by the shuffled parameter, a permutation of
availablePrompts; r models the Math.random draw deciding between selecting
2 or 3 genres.  With no available prompt it returns without touching
anything. -/
def changeGenresRandomly (s : AutoDjState) (shuffled : List Prompt) (r : Nat) :
    AutoDjState :=
  let avail := availablePrompts s
  if avail.isEmpty then s
  else
    let zeroed := zeroWeights s.prompts
    let numToSelect := min (r % 2 + 2) avail.length
    let chosen := shuffled.take numToSelect
    { s with prompts := chosen.foldl (fun acc p => setWeightById acc p.promptId) zeroed }

/-- applyCurrentAutoDjTransition, PromptDjMidi.ts lines 446-470.  With no
transition at the current index it returns; otherwise it zeroes every weight
(a mutation of the shared Prompt objects, visible even on the fallback path)
and activates the transition's genres; when none resolved it falls back to
random selection over the already-zeroed prompt set. -/
def applyCurrentAutoDjTransition (s : AutoDjState) (shuffled : List Prompt)
    (r : Nat) : AutoDjState :=
  match listGetInt s.autoDjPlaylist s.autoDjCurrentIndex with
  | none => s
  | some transition =>
    let zeroed := zeroWeights s.prompts
    let res := activateGenres zeroed transition.genres
    if res.2 = 0 then
      changeGenresRandomly { s with prompts := zeroed } shuffled r
    else
      { s with prompts := res.1 }

/-- stopAutoDj, PromptDjMidi.ts lines 521-531: cancels the cadence interval,
deactivates, clears the playlist and index, and resets the model to the
primary. -/
def stopAutoDj (s : AutoDjState) : AutoDjState :=
  { s with autoDjIntervalId := none, isAutoDjActive := false,
           isAutoDjLoading := false, autoDjPlaylist := [],
           autoDjCurrentIndex := -1, currentModel := "gemini-2.0-flash-lite" }

/-- The updated lifecycle hook, PromptDjMidi.ts lines 265-272: on a
playbackState change to anything but playing while Auto DJ is active, stop
Auto DJ. -/
def updatedHook (s : AutoDjState) (newPlayback : PlaybackState) : AutoDjState :=
  let s1 := { s with playbackState := newPlayback }
  if newPlayback ≠ .playing ∧ s1.isAutoDjActive = true then stopAutoDj s1 else s1

/-- The model fallback chain as declared for currentModel,
PromptDjMidi.ts line 211. -/
def modelFallbackChain : List String :=
  ["gemini-2.0-flash-lite", "gemma-3-27b-it", "gemma-3-12b-it", "gemma-3-4b-it"]

/-- Outcome of the rate-limit branch of the fetchAutoDjPlaylist catch. -/
inductive RateLimitAction
  | retryFetch
  | engageCooldown
deriving DecidableEq, Repr

/-- cooldown length, PromptDjMidi.ts line 420. -/
def coolDownMinutes : Nat := 5

/-- The rate-limit fallback ladder in the catch of fetchAutoDjPlaylist,
PromptDjMidi.ts lines 399-436: the primary falls to gemma-3-12b-it, that
falls to gemma-3-4b-it, anything else engages the cooldown with the model
left as is. -/
def rateLimitFallbackStep (m : String) : String × RateLimitAction :=
  if m = "gemini-2.0-flash-lite" then ("gemma-3-12b-it", .retryFetch)
  else if m = "gemma-3-12b-it" then ("gemma-3-4b-it", .retryFetch)
  else (m, .engageCooldown)

/-- The models a run of consecutive rate-limit failures tries, starting from
the given model, until the cooldown engages (fuel bounds the recursion). -/
def triedModels (fuel : Nat) (m : String) : List String :=
  match fuel with
  | 0 => []
  | fuel + 1 =>
    match rateLimitFallbackStep m with
    | (next, .retryFetch) => m :: triedModels fuel next
    | (_, .engageCooldown) => [m]

/-- The cooldown-expiry setTimeout callback, PromptDjMidi.ts lines 425-432:
deactivates the cooldown, resets the model to the primary and clears the
timer handle. -/
def cooldownExpiry (s : AutoDjState) : AutoDjState :=
  { s with rateLimitCooldownActive := false,
           currentModel := "gemini-2.0-flash-lite", rateLimitTimeoutId := none }

/-- C8: whenever the playback state changes to anything but playing while
Auto DJ is active, the lifecycle hook forces Auto DJ inactive: the cadence
interval is cancelled, the playlist and its index are cleared, and the
loading flag (hence any further background planning) is off. -/
theorem C8_autodj_forced_inactive (s : AutoDjState) (newPlayback : PlaybackState)
    (hnp : newPlayback ≠ .playing) (hact : s.isAutoDjActive = true) :
    (updatedHook s newPlayback).isAutoDjActive = false
    ∧ (updatedHook s newPlayback).autoDjIntervalId = none
    ∧ (updatedHook s newPlayback).autoDjPlaylist = []
    ∧ (updatedHook s newPlayback).autoDjCurrentIndex = -1
    ∧ (updatedHook s newPlayback).isAutoDjLoading = false := by
  unfold updatedHook
  rw [if_pos ⟨hnp, hact⟩]
  exact ⟨rfl, rfl, rfl, rfl, rfl⟩

/-- A concrete Auto DJ state: active with a running interval, a cached
playlist and a live prompt set. -/
def activeAutoDjState : AutoDjState :=
  { playbackState := .playing, isAutoDjActive := true, isAutoDjLoading := false,
    rateLimitCooldownActive := false,
    autoDjPlaylist := [{ genres := ["Rock", "Jazz"] }], autoDjCurrentIndex := 0,
    currentModel := "gemini-2.0-flash-lite", autoDjIntervalId := some 7,
    rateLimitTimeoutId := none,
    prompts := [{ promptId := "prompt-0", text := "Rock", weight := 1 },
                { promptId := "prompt-1", text := "Jazz", weight := 0 }],
    filteredPrompts := [] }

/-- C8 witness: pausing while the concrete Auto DJ state is active cancels
the interval, clears the playlist and deactivates Auto DJ. -/
theorem C8_witness :
    (updatedHook activeAutoDjState .paused).isAutoDjActive = false
    ∧ (updatedHook activeAutoDjState .paused).autoDjIntervalId = none
    ∧ (updatedHook activeAutoDjState .paused).autoDjPlaylist = [] := by
  have h := C8_autodj_forced_inactive activeAutoDjState .paused (by simp) rfl
  exact ⟨h.1, h.2.1, h.2.2.1⟩

/-- C6: the claim as stated is false.  gemma-3-27b-it is in the declared
ModelFallbackChain but is never tried by the rate-limit ladder starting from
the chain's head: consecutive rate-limit failures skip it. -/
theorem C6_counterexample :
    "gemma-3-27b-it" ∈ modelFallbackChain
    ∧ "gemma-3-27b-it" ∉ triedModels 10 "gemini-2.0-flash-lite" := by
  constructor
  · simp [modelFallbackChain]
  · simp [triedModels, rateLimitFallbackStep]

/-- C6 (amended): consecutive rate-limit failures advance
gemini-2.0-flash-lite to gemma-3-12b-it to gemma-3-4b-it — three of the four
chain models, skipping gemma-3-27b-it — before the 5-minute cooldown engages,
and the cooldown-expiry callback resets the active model to the chain's head
and clears the cooldown. -/
theorem C6_fallback_ladder (s : AutoDjState) :
    triedModels 10 "gemini-2.0-flash-lite"
      = ["gemini-2.0-flash-lite", "gemma-3-12b-it", "gemma-3-4b-it"]
    ∧ (rateLimitFallbackStep "gemma-3-4b-it").2 = RateLimitAction.engageCooldown
    ∧ coolDownMinutes = 5
    ∧ (cooldownExpiry s).currentModel = "gemini-2.0-flash-lite"
    ∧ (cooldownExpiry s).rateLimitCooldownActive = false
    ∧ modelFallbackChain.head? = some "gemini-2.0-flash-lite" := by
  refine ⟨?_, ?_, rfl, rfl, rfl, rfl⟩
  · simp [triedModels, rateLimitFallbackStep]
  · simp [rateLimitFallbackStep]

/-- Lemma: activating the prompt with a present id yields a weight-1 prompt. -/
theorem setWeightById_one (ps : List Prompt) (i : String)
    (h : ∃ p ∈ ps, p.promptId = i) :
    ∃ p ∈ setWeightById ps i, p.weight = 1 := by
  induction ps with
  | nil => simp at h
  | cons q rest ih =>
    unfold setWeightById
    by_cases hq : q.promptId = i
    · rw [if_pos hq]
      exact ⟨_, List.mem_cons_self _ _, rfl⟩
    · rw [if_neg hq]
      rcases h with ⟨p, hp, hid⟩
      rcases List.mem_cons.mp hp with hp | hp
      · exact absurd (hp ▸ hid) hq
      · rcases ih ⟨p, hp, hid⟩ with ⟨q2, hq2, hw2⟩
        exact ⟨q2, List.mem_cons_of_mem _ hq2, hw2⟩

/-- Lemma: activating by id never destroys an existing weight-1 prompt. -/
theorem setWeightById_keep (ps : List Prompt) (i : String)
    (h : ∃ p ∈ ps, p.weight = 1) :
    ∃ p ∈ setWeightById ps i, p.weight = 1 := by
  induction ps with
  | nil => simp at h
  | cons q rest ih =>
    unfold setWeightById
    by_cases hq : q.promptId = i
    · rw [if_pos hq]
      exact ⟨_, List.mem_cons_self _ _, rfl⟩
    · rw [if_neg hq]
      rcases h with ⟨p, hp, hw⟩
      rcases List.mem_cons.mp hp with hp | hp
      · exact ⟨q, List.mem_cons_self _ _, hp ▸ hw⟩
      · rcases ih ⟨p, hp, hw⟩ with ⟨q2, hq2, hw2⟩
        exact ⟨q2, List.mem_cons_of_mem _ hq2, hw2⟩

/-- Lemma: the random-selection activation loop never destroys an existing
weight-1 prompt. -/
theorem foldl_setWeightById_keep (l : List Prompt) :
    ∀ ps : List Prompt, (∃ p ∈ ps, p.weight = 1) →
      ∃ p ∈ l.foldl (fun acc q => setWeightById acc q.promptId) ps, p.weight = 1 := by
  induction l with
  | nil => intro ps h; exact h
  | cons q rest ih =>
    intro ps h
    exact ih _ (setWeightById_keep ps q.promptId h)

/-- Lemma: activating the first prompt with a present text yields a weight-1
prompt. -/
theorem setWeightFirst_one (ps : List Prompt) (g : String)
    (h : ∃ p ∈ ps, p.text = g) :
    ∃ p ∈ setWeightFirst ps g, p.weight = 1 := by
  induction ps with
  | nil => simp at h
  | cons q rest ih =>
    unfold setWeightFirst
    by_cases hq : q.text = g
    · rw [if_pos hq]
      exact ⟨_, List.mem_cons_self _ _, rfl⟩
    · rw [if_neg hq]
      rcases h with ⟨p, hp, htx⟩
      rcases List.mem_cons.mp hp with hp | hp
      · exact absurd (hp ▸ htx) hq
      · rcases ih ⟨p, hp, htx⟩ with ⟨q2, hq2, hw2⟩
        exact ⟨q2, List.mem_cons_of_mem _ hq2, hw2⟩

/-- Lemma: activating by text never destroys an existing weight-1 prompt. -/
theorem setWeightFirst_keep (ps : List Prompt) (g : String)
    (h : ∃ p ∈ ps, p.weight = 1) :
    ∃ p ∈ setWeightFirst ps g, p.weight = 1 := by
  induction ps with
  | nil => simp at h
  | cons q rest ih =>
    unfold setWeightFirst
    by_cases hq : q.text = g
    · rw [if_pos hq]
      exact ⟨_, List.mem_cons_self _ _, rfl⟩
    · rw [if_neg hq]
      rcases h with ⟨p, hp, hw⟩
      rcases List.mem_cons.mp hp with hp | hp
      · exact ⟨q, List.mem_cons_self _ _, hp ▸ hw⟩
      · rcases ih ⟨p, hp, hw⟩ with ⟨q2, hq2, hw2⟩
        exact ⟨q2, List.mem_cons_of_mem _ hq2, hw2⟩

/-- Lemma: the transition activation loop never destroys an existing
weight-1 prompt. -/
theorem activateGenres_keep (gs : List String) :
    ∀ ps : List Prompt, (∃ p ∈ ps, p.weight = 1) →
      ∃ p ∈ (activateGenres ps gs).1, p.weight = 1 := by
  induction gs with
  | nil => intro ps h; exact h
  | cons g rest ih =>
    intro ps h
    unfold activateGenres
    by_cases hg : ps.any (fun p => p.text == g)
    · rw [if_pos hg]
      exact ih _ (setWeightFirst_keep ps g h)
    · rw [if_neg hg]
      exact ih _ h

/-- Lemma: a transition that activates at least one genre leaves a weight-1
prompt in the resulting set. -/
theorem activateGenres_pos (gs : List String) :
    ∀ ps : List Prompt, (activateGenres ps gs).2 ≠ 0 →
      ∃ p ∈ (activateGenres ps gs).1, p.weight = 1 := by
  induction gs with
  | nil => intro ps h; exact absurd rfl h
  | cons g rest ih =>
    intro ps h
    unfold activateGenres
    by_cases hg : ps.any (fun p => p.text == g)
    · rw [if_pos hg]
      refine activateGenres_keep rest _ (setWeightFirst_one ps g ?_)
      rcases List.any_eq_true.mp hg with ⟨p, hp, hpg⟩
      exact ⟨p, hp, by simpa using hpg⟩
    · rw [if_neg hg]
      refine ih ps ?_
      unfold activateGenres at h
      rw [if_neg hg] at h
      exact h

/-- Lemma: zeroing weights preserves prompt ids. -/
theorem zeroWeights_id_mem (ps : List Prompt) (p : Prompt) (hp : p ∈ ps) :
    ∃ q ∈ zeroWeights ps, q.promptId = p.promptId :=
  ⟨{ p with weight := 0 }, List.mem_map_of_mem _ hp, rfl⟩

/-- Lemma: the availability filter ignores weights, so it commutes with
zeroing them. -/
theorem availablePrompts_zeroWeights (s : AutoDjState) :
    availablePrompts { s with prompts := zeroWeights s.prompts }
      = zeroWeights (availablePrompts s) := by
  unfold availablePrompts zeroWeights
  rw [List.filter_map]
  rfl

/-- Lemma: with at least one available prompt, random selection activates at
least one of them: the resulting set holds a weight-1 prompt. -/
theorem changeGenresRandomly_active (s : AutoDjState) (shuffled : List Prompt)
    (r : Nat)
    (hperm : shuffled.Perm (availablePrompts s))
    (hne : availablePrompts s ≠ []) :
    ∃ p ∈ (changeGenresRandomly s shuffled r).prompts, p.weight = 1 := by
  unfold changeGenresRandomly
  rw [if_neg (by simpa [List.isEmpty_iff] using hne)]
  dsimp only
  have hsne : shuffled ≠ [] := by
    intro hnil
    rw [hnil] at hperm
    exact hne hperm.nil_eq.symm
  obtain ⟨c, cs, rfl⟩ := List.exists_cons_of_ne_nil hsne
  have hnum : min (r % 2 + 2) (availablePrompts s).length ≠ 0 := by
    have hlen : 0 < (availablePrompts s).length := List.length_pos.mpr hne
    omega
  rcases Nat.exists_eq_succ_of_ne_zero hnum with ⟨k, hk⟩
  rw [hk, List.take_succ_cons, List.foldl_cons]
  have hcmem : c ∈ availablePrompts s := hperm.subset (List.mem_cons_self _ _)
  have hcps : c ∈ s.prompts := List.mem_of_mem_filter hcmem
  exact foldl_setWeightById_keep _ _
    (setWeightById_one _ _ (zeroWeights_id_mem s.prompts c hcps))

/-- A concrete Auto DJ state in which every prompt text has been filtered by
the service and the pending transition names a genre absent from the prompt
set. -/
def allFilteredState : AutoDjState :=
  { playbackState := .playing, isAutoDjActive := true, isAutoDjLoading := false,
    rateLimitCooldownActive := false,
    autoDjPlaylist := [{ genres := ["Jazz"] }], autoDjCurrentIndex := 0,
    currentModel := "gemini-2.0-flash-lite", autoDjIntervalId := some 7,
    rateLimitTimeoutId := none,
    prompts := [{ promptId := "prompt-0", text := "Rock", weight := 1 }],
    filteredPrompts := ["Rock"] }

/-- C5: the claim as stated is false.  In allFilteredState a transition is
present and applied: the shared prompt objects are zeroed, the named genre
resolves to nothing, and the random fallback finds no available prompt and
returns — leaving a non-empty prompt set with no positive weight. -/
theorem C5_counterexample :
    listGetInt allFilteredState.autoDjPlaylist allFilteredState.autoDjCurrentIndex
      = some { genres := ["Jazz"] }
    ∧ (applyCurrentAutoDjTransition allFilteredState [] 0).prompts
        = [{ promptId := "prompt-0", text := "Rock", weight := 0 }]
    ∧ ¬ ∃ p ∈ (applyCurrentAutoDjTransition allFilteredState [] 0).prompts,
        0 < p.weight := by
  have h1 : listGetInt allFilteredState.autoDjPlaylist allFilteredState.autoDjCurrentIndex
      = some { genres := ["Jazz"] } := by
    simp [listGetInt, allFilteredState]
  have h2 : (applyCurrentAutoDjTransition allFilteredState [] 0).prompts
      = [{ promptId := "prompt-0", text := "Rock", weight := 0 }] := by
    unfold applyCurrentAutoDjTransition
    rw [h1]
    simp [activateGenres, setWeightFirst, zeroWeights, changeGenresRandomly,
      availablePrompts, allFilteredState]
  refine ⟨h1, h2, ?_⟩
  rw [h2]
  rintro ⟨p, hp, hw⟩
  rw [List.mem_singleton] at hp
  rw [hp] at hw
  norm_num at hw

/-- C5 (amended): provided at least one prompt text is unfiltered, every
transition applied by the Auto DJ leaves at least one prompt with positive
weight — both the local random fallback and a transition taken from the
planner's setlist (which itself degrades to the random fallback when none of
its genres resolve).  shuffled and shuffled2 model the random shuffles as
permutations of the respective available prompt lists. -/
theorem C5_transition_keeps_active (s : AutoDjState)
    (shuffled shuffled2 : List Prompt) (r r2 : Nat)
    (hperm : shuffled.Perm (availablePrompts s))
    (hperm2 : shuffled2.Perm
      (availablePrompts { s with prompts := zeroWeights s.prompts }))
    (hne : availablePrompts s ≠ []) :
    (∃ p ∈ (changeGenresRandomly s shuffled r).prompts, 0 < p.weight)
    ∧ (∀ t, listGetInt s.autoDjPlaylist s.autoDjCurrentIndex = some t →
        ∃ p ∈ (applyCurrentAutoDjTransition s shuffled2 r2).prompts,
          0 < p.weight) := by
  have hone : ∀ {l : List Prompt}, (∃ p ∈ l, p.weight = 1) →
      ∃ p ∈ l, (0 : ℚ) < p.weight := by
    rintro l ⟨p, hp, hw⟩
    exact ⟨p, hp, by rw [hw]; norm_num⟩
  constructor
  · exact hone (changeGenresRandomly_active s shuffled r hperm hne)
  · intro t ht
    unfold applyCurrentAutoDjTransition
    rw [ht]
    dsimp only
    by_cases hz : (activateGenres (zeroWeights s.prompts) t.genres).2 = 0
    · rw [if_pos hz]
      have hne2 : availablePrompts { s with prompts := zeroWeights s.prompts } ≠ [] := by
        rw [availablePrompts_zeroWeights]
        intro hc
        exact hne (List.map_eq_nil_iff.mp hc)
      exact hone (changeGenresRandomly_active _ shuffled2 r2 hperm2 hne2)
    · rw [if_neg hz]
      exact hone (activateGenres_pos t.genres (zeroWeights s.prompts) hz)

/-- C5 witness: at the concrete active state (Rock active, Jazz available,
nothing filtered), both the random fallback and the setlist transition leave
a positively-weighted prompt. -/
theorem C5_witness :
    (∃ p ∈ (changeGenresRandomly activeAutoDjState
        (availablePrompts activeAutoDjState) 0).prompts, 0 < p.weight)
    ∧ (∃ p ∈ (applyCurrentAutoDjTransition activeAutoDjState
        (availablePrompts
          { activeAutoDjState with prompts := zeroWeights activeAutoDjState.prompts })
        0).prompts, 0 < p.weight) := by
  have h := C5_transition_keeps_active activeAutoDjState
    (availablePrompts activeAutoDjState)
    (availablePrompts
      { activeAutoDjState with prompts := zeroWeights activeAutoDjState.prompts })
    0 0 (List.Perm.refl _) (List.Perm.refl _)
    (by simp [availablePrompts, activeAutoDjState])
  exact ⟨h.1, h.2 { genres := ["Rock", "Jazz"] }
    (by simp [listGetInt, activeAutoDjState])⟩

end AIDJ
